import Mathlib

/-!
Verification of the award-versus-cash value calculator (value_calculator.py).

The Python module computes, for each award-flight option, a value-per-mile
figure against the cheapest cash fare, a verdict against a per-program
baseline valuation, and an estimated savings figure, and returns the options
sorted by value per mile.

Modelling conventions:
- Python floats are modelled as exact rationals.  The literals 1.1, 0.9,
  0.012 and so on denote the corresponding exact rationals.
- The two-argument builtin round models rounding to n decimal places.  It is
  modelled as rounding the scaled value to the nearest integer.  No claim
  below exercises an exact half-way tie, where the binary-float behaviour of
  the Python builtin would differ.
- A pandas DataFrame of point valuations is modelled as an optional list of
  rows, a row being a pair of program name and value per point.  The Python
  value None is modelled as the empty option; iteration order of rows and of
  dict literals is the list order, as in Python 3.7 and later.
- Award options come in as Python dicts; the fields read with bracket access
  in the source may be absent, which raises KeyError.  They are therefore
  modelled as optional fields, and the per-option computation returns an
  Except value.  Fields read only with dict.get are total with the default
  applied.
-/

attribute [local semireducible] Rat.add Rat.mul Rat.sub Rat.inv Rat.ofScientific

/-! ## Rounding model -/

/-- Model of the Python builtin round(x, 4): scale by 10^4, round to the
nearest integer, scale back. -/
def round4 (q : ℚ) : ℚ := ((round (q * 10000) : ℤ) : ℚ) / 10000

/-- Model of the Python builtin round(x, 2). -/
def round2 (q : ℚ) : ℚ := ((round (q * 100) : ℤ) : ℚ) / 100

/-! ## Core arithmetic formulas, from value_calculator.py lines 203-237 -/

/-- Lines 203-211: value per mile is (cash_price - taxes) / miles_required
rounded to 4 decimal places, and 0 when miles_required <= 0. -/
def calculate_value_per_mile (cash_price taxes miles_required : ℚ) : ℚ :=
  if miles_required ≤ 0 then 0
  else round4 ((cash_price - taxes) / miles_required)

/-- Lines 213-222: verdict from value per mile against the TPG baseline. -/
def determine_verdict (value_per_mile tpg_baseline : ℚ) : String :=
  if tpg_baseline * 1.1 ≤ value_per_mile then "Use Points"
  else if tpg_baseline * 0.9 ≤ value_per_mile then "Good Value"
  else "Use Cash"

/-- Lines 224-237: savings = cash_price - (miles_required * baseline + taxes),
rounded to 2 decimal places. -/
def calculate_savings (cash_price miles_required taxes tpg_baseline : ℚ) : ℚ :=
  round2 (cash_price - (miles_required * tpg_baseline + taxes))

/-! ## String helpers modelling the Python operations used by the lookup.

They are written as structural recursions over the character list so that
concrete instances evaluate by kernel reduction. -/

/-- Model of Python str.lower for the ASCII range used by the tables. -/
def lowerChar (c : Char) : Char :=
  if 65 ≤ c.toNat ∧ c.toNat ≤ 90 then Char.ofNat (c.toNat + 32) else c

/-- Lower-case a whole string. -/
def lowerStr (s : String) : String := ⟨s.toList.map lowerChar⟩

/-- Is the first character list a prefix of the second. -/
def listPrefixOf : List Char → List Char → Bool
  | [], _ => true
  | _ :: _, [] => false
  | a :: as, b :: bs => a == b && listPrefixOf as bs

/-- Is the first character list a contiguous infix of the second. -/
def listInfixOf : List Char → List Char → Bool
  | n, [] => n.isEmpty
  | n, h :: hs => listPrefixOf n (h :: hs) || listInfixOf n hs

/-- Model of the Python membership test needle in hay on strings. -/
def substrOf (needle hay : String) : Bool := listInfixOf needle.toList hay.toList

/-- Helper for pyWords: accumulate the current word in reverse. -/
def splitWsAux : List Char → List Char → List String
  | [], acc => if acc.isEmpty then [] else [⟨acc.reverse⟩]
  | c :: cs, acc =>
    if c.isWhitespace then
      (if acc.isEmpty then [] else [⟨acc.reverse⟩]) ++ splitWsAux cs []
    else splitWsAux cs (c :: acc)

/-- Model of Python str.split with no argument: split on whitespace runs and
drop empty pieces. -/
def pyWords (s : String) : List String := splitWsAux s.toList []

/-! ## Static tables, from value_calculator.py lines 90-133 and 173-189 -/

/-- The alias map program_mapping defined inside get_tpg_baseline_value
(lines 90-133), in source order. -/
def program_mapping : List (String × String) := [
  ("American AAdvantage", "American Airlines AAdvantage"),
  ("United MileagePlus", "United MileagePlus"),
  ("Delta SkyMiles", "Delta SkyMiles"),
  ("British Airways Avios", "Avios"),
  ("Air Canada Aeroplan", "Air Canada Aeroplan"),
  ("Alaska Airlines Mileage Plan", "Alaska Airlines Mileage Plan"),
  ("Southwest Rapid Rewards", "Southwest Rapid Rewards"),
  ("JetBlue TrueBlue", "JetBlue TrueBlue"),
  ("Spirit Airlines Free Spirit", "Spirit Airlines Free Spirit"),
  ("Frontier Miles", "Frontier Miles"),
  ("Hawaiian Airlines HawaiianMiles", "HawaiianMiles"),
  ("Korean Air SkyPass", "Korean Air SkyPass"),
  ("Qantas Frequent Flyer", "Qantas Frequent Flyer"),
  ("Singapore Airlines KrisFlyer", "Singapore Airlines KrisFlyer"),
  ("Turkish Airlines Miles&Smiles", "Turkish Airlines Miles&Smiles"),
  ("Virgin Atlantic Flying Club", "Virgin Atlantic Flying Club"),
  ("Emirates Skywards", "Emirates Skywards"),
  ("Etihad Guest", "Etihad Guest"),
  ("Flying Blue", "Flying Blue"),
  ("Cathay Asia Miles", "Cathay Asia Miles"),
  ("ANA Mileage Club", "ANA Mileage Club"),
  ("Avianca LifeMiles", "Avianca LifeMiles"),
  ("Aeromexico Rewards", "Aeromexico Rewards"),
  ("Chase Ultimate Rewards", "Chase Ultimate Rewards"),
  ("American Express Membership Rewards", "American Express Membership Rewards"),
  ("Citi ThankYou Rewards", "Citi ThankYou Rewards"),
  ("Capital One", "Capital One"),
  ("Wells Fargo Rewards", "Wells Fargo Rewards"),
  ("Bilt Rewards", "Bilt Rewards"),
  ("Hilton Honors", "Hilton Honors"),
  ("Marriott Bonvoy", "Marriott Bonvoy"),
  ("World of Hyatt", "World of Hyatt"),
  ("IHG One Rewards", "IHG One Rewards"),
  ("Wyndham Rewards", "Wyndham Rewards"),
  ("Best Western Rewards", "Best Western Rewards"),
  ("Choice Privileges", "Choice Privileges"),
  ("Accor Live Limitless", "Accor Live Limitless")]

/-- The dict default_values of get_default_tpg_value (lines 173-189), in
source order. -/
def default_values : List (String × ℚ) := [
  ("American AAdvantage", 0.014),
  ("United MileagePlus", 0.012),
  ("Delta SkyMiles", 0.011),
  ("British Airways Avios", 0.012),
  ("Air Canada Aeroplan", 0.013),
  ("Alaska Airlines Mileage Plan", 0.014),
  ("Southwest Rapid Rewards", 0.013),
  ("JetBlue TrueBlue", 0.012),
  ("Hilton Honors", 0.005),
  ("Marriott Bonvoy", 0.008),
  ("Hyatt World of Hyatt", 0.017),
  ("Chase Ultimate Rewards", 0.015),
  ("American Express Membership Rewards", 0.015),
  ("Citi ThankYou Points", 0.014),
  ("Capital One Miles", 0.014)]

/-! ## Default per-program lookup, lines 169-201 -/

/-- Exact-key stage of get_default_tpg_value (line 192). -/
def defaultExactStage (name : String) : Option ℚ := default_values.lookup name

/-- Bidirectional case-insensitive substring stage of get_default_tpg_value
(lines 196-198): first key, in table order, with key.lower contained in
name.lower or name.lower contained in key.lower. -/
def defaultSubstrStage (name : String) : Option ℚ :=
  default_values.findSome? fun p =>
    if substrOf (lowerStr p.1) (lowerStr name) || substrOf (lowerStr name) (lowerStr p.1)
    then some p.2 else none

/-- Lines 169-201: static default value for a program, global fallback 0.012. -/
def get_default_tpg_value (name : String) : ℚ :=
  match defaultExactStage name with
  | some v => v
  | none =>
    match defaultSubstrStage name with
    | some v => v
    | none => 0.012

/-! ## Scraped-table lookup, lines 82-167 -/

/-- Exact match of a program name against the table (line 136), first row
wins as with DataFrame filtering plus iloc 0. -/
def exactStage (rows : List (String × ℚ)) (name : String) : Option ℚ :=
  (rows.find? fun r => r.1 == name).map (·.2)

/-- Lines 141-145: map the name through program_mapping, then exact match.
Absence of the alias, or of the aliased row, falls through. -/
def aliasStage (rows : List (String × ℚ)) (name : String) : Option ℚ :=
  match program_mapping.lookup name with
  | some mapped => exactStage rows mapped
  | none => none

/-- The partial-match condition of lines 153-155 on lower-cased names:
containment in either direction, or some input word longer than 3
characters contained in the row name. -/
def fuzzyRowMatch (name rowName : String) : Bool :=
  let nl := lowerStr name
  let rl := lowerStr rowName
  substrOf nl rl || substrOf rl nl ||
    (pyWords nl).any fun w => decide (3 < w.length) && substrOf w rl

/-- Lines 148-156: first row, in table order, passing fuzzyRowMatch. -/
def fuzzyStage (rows : List (String × ℚ)) (name : String) : Option ℚ :=
  (rows.find? fun r => fuzzyRowMatch name r.1).map (·.2)

/-- Lines 158-163: first alias pair whose target equals the name and whose
source key has an exact row, in dict order; pairs whose source key has no
row are passed over. -/
def reverseAliasStage (rows : List (String × ℚ)) (name : String) : Option ℚ :=
  program_mapping.findSome? fun p =>
    if p.2 == name then exactStage rows p.1 else none

/-- Lines 82-167: the full baseline lookup.  A missing (None) or empty table
goes straight to the defaults; otherwise the four stages run in order and
the defaults close the cascade. -/
def get_tpg_baseline_value (name : String) (tpg_values : Option (List (String × ℚ))) : ℚ :=
  match tpg_values with
  | none => get_default_tpg_value name
  | some rows =>
    if rows.isEmpty then get_default_tpg_value name
    else
      match exactStage rows name with
      | some v => v
      | none =>
        match aliasStage rows name with
        | some v => v
        | none =>
          match fuzzyStage rows name with
          | some v => v
          | none =>
            match reverseAliasStage rows name with
            | some v => v
            | none => get_default_tpg_value name

/-! ## The cascade as the specification words it (for claim C7).

The claim describes the lookup as an ordered first-match-wins cascade whose
default-table stage reuses, quote, the same substring heuristic, that is,
the containment-or-word-overlap test of the scraped-table stage.  The code
instead uses only the bidirectional containment test there. -/

/-- First-match-wins over a list of stage outcomes, with a final fallback. -/
def stageChain (stages : List (Option ℚ)) (fallback : ℚ) : ℚ :=
  (stages.findSome? id).getD fallback

/-- Default-table stage as the claim words it: the full substring heuristic
of the scraped-table stage, applied to the default-table keys. -/
def defaultFuzzyFullStage (name : String) : Option ℚ :=
  default_values.findSome? fun p =>
    if fuzzyRowMatch name p.1 then some p.2 else none

/-- The baseline lookup exactly as claim C7 words it: exact, alias, fuzzy,
reverse alias against the table, then default exact, then the full fuzzy
heuristic against the default keys, then 0.012. -/
def claimed_baseline_lookup (name : String) (tpg_values : Option (List (String × ℚ))) : ℚ :=
  let rows := tpg_values.getD []
  stageChain [exactStage rows name, aliasStage rows name, fuzzyStage rows name,
    reverseAliasStage rows name, defaultExactStage name, defaultFuzzyFullStage name] 0.012

/-- The amended cascade: identical to claimed_baseline_lookup except that the
default-table fallback stage uses only bidirectional case-insensitive
containment, with no word-overlap clause. -/
def amended_baseline_lookup (name : String) (tpg_values : Option (List (String × ℚ))) : ℚ :=
  let rows := tpg_values.getD []
  stageChain [exactStage rows name, aliasStage rows name, fuzzyStage rows name,
    reverseAliasStage rows name, defaultExactStage name, defaultSubstrStage name] 0.012

/-! ## Data model of the comparison, lines 4-80 -/

/-- An award option as the comparator reads it.  The fields airline, program,
miles and taxes are read with bracket access and may be absent (KeyError);
availability and transfer_partners are read with dict.get and a default. -/
structure AwardOption where
  airline : Option String
  program : Option String
  miles : Option ℚ
  taxes : Option ℚ
  availability : Option String
  transfer_partners : Option (List String)
deriving DecidableEq

/-- A cash fare; the comparator reads only the price field. -/
structure CashFare where
  airline : String
  price : ℚ
deriving DecidableEq

/-- One entry of the list returned by calculate_value_comparison, fields in
the order of the dict literal at lines 55-69. -/
structure ComparisonResult where
  airline : String
  program : String
  miles_required : ℚ
  taxes : ℚ
  cash_price : ℚ
  value_per_mile : ℚ
  tpg_baseline : ℚ
  verdict : String
  savings : ℚ
  availability : String
  transfer_partners : List String
  trip_type : String
  return_date : Option String
deriving DecidableEq

deriving instance DecidableEq for Except

/-- Lines 20-24: the reference cash price is the minimum price over the cash
list, and 0 when the list is empty. -/
def lowestCashPrice (cash_data : List CashFare) : ℚ :=
  match cash_data with
  | [] => 0
  | f :: rest => rest.foldl (fun m g => min m g.price) f.price

/-- The body of the per-award try block, lines 30-71.  The bracket accesses
happen in source order: program (line 32), miles and taxes (line 35), then
airline (line 56) when the result dict is built.  A missing key yields an
error naming the key. -/
def processAward (lowest trip_mult : ℚ) (tpg_values : Option (List (String × ℚ)))
    (trip_type : String) (return_date : Option String) (a : AwardOption) :
    Except String ComparisonResult :=
  match a.program with
  | none => .error "KeyError: program"
  | some prog =>
    let tpg_baseline := get_tpg_baseline_value prog tpg_values
    match a.miles with
    | none => .error "KeyError: miles"
    | some miles =>
      match a.taxes with
      | none => .error "KeyError: taxes"
      | some taxes =>
        let m := miles * trip_mult
        let t := taxes * trip_mult
        let vpm := calculate_value_per_mile (lowest * trip_mult) t m
        let verdict := determine_verdict vpm tpg_baseline
        let savings := calculate_savings (lowest * trip_mult) m t tpg_baseline
        match a.airline with
        | none => .error "KeyError: airline"
        | some airline =>
          .ok { airline := airline, program := prog, miles_required := m, taxes := t,
                cash_price := lowest * trip_mult, value_per_mile := vpm,
                tpg_baseline := tpg_baseline, verdict := verdict, savings := savings,
                availability := a.availability.getD "Unknown",
                transfer_partners := a.transfer_partners.getD [],
                trip_type := trip_type, return_date := return_date }

/-- The for loop of lines 29-75.  A failing option is logged and skipped,
except that the log line itself reads award with bracket access on program:
when program is the missing key the handler raises and the whole call
propagates the error, discarding earlier results. -/
def comparisonLoop (lowest trip_mult : ℚ) (tpg_values : Option (List (String × ℚ)))
    (trip_type : String) (return_date : Option String) :
    List AwardOption → Except String (List ComparisonResult)
  | [] => .ok []
  | a :: rest =>
    match processAward lowest trip_mult tpg_values trip_type return_date a with
    | .ok r =>
      (comparisonLoop lowest trip_mult tpg_values trip_type return_date rest).map (r :: ·)
    | .error e =>
      match a.program with
      | some _ => comparisonLoop lowest trip_mult tpg_values trip_type return_date rest
      | none => .error e

/-- Stable insertion of a result into a list sorted by descending value per
mile; an element with equal key keeps its earlier position. -/
def insertDesc (r : ComparisonResult) : List ComparisonResult → List ComparisonResult
  | [] => [r]
  | x :: xs =>
    if x.value_per_mile ≤ r.value_per_mile then r :: x :: xs else x :: insertDesc r xs

/-- Line 78: results.sort(key value_per_mile, reverse).  The Python sort is
stable; a stable insertion sort produces the identical list. -/
def sortByVpmDesc (l : List ComparisonResult) : List ComparisonResult :=
  l.foldr insertDesc []

/-- Lines 4-80: the full comparison.  The Except value models whether the
Python call returns normally or propagates an exception. -/
def calculate_value_comparison (award_data : List AwardOption) (cash_data : List CashFare)
    (tpg_values : Option (List (String × ℚ))) (trip_type : String)
    (return_date : Option String) : Except String (List ComparisonResult) :=
  let lowest := lowestCashPrice cash_data
  let mult : ℚ := if trip_type == "roundtrip" then 2 else 1
  (comparisonLoop lowest mult tpg_values trip_type return_date award_data).map sortByVpmDesc

/-! ## Demonstration data used by closed witnesses and counterexamples.

The award, fare and table below are the test fixture at the bottom of
value_calculator.py (lines 331-351). -/

/-- The test award of lines 331-339. -/
def demoAward : AwardOption :=
  { airline := some "American Airlines", program := some "American AAdvantage",
    miles := some 25000, taxes := some 50, availability := some "Good",
    transfer_partners := none }

/-- The test cash fare of lines 341-347. -/
def demoCash : List CashFare := [{ airline := "American Airlines", price := 350 }]

/-- The test valuation table of lines 349-351. -/
def demoTpg : Option (List (String × ℚ)) := some [("American AAdvantage", 0.014)]

/-- The comparison entry the fixture produces, matching the worked example of
the documentation: value 0.012 per mile, verdict Use Cash, savings -50. -/
def demoResult : ComparisonResult :=
  { airline := "American Airlines", program := "American AAdvantage",
    miles_required := 25000, taxes := 50, cash_price := 350,
    value_per_mile := 0.012, tpg_baseline := 0.014, verdict := "Use Cash",
    savings := -50, availability := "Good", transfer_partners := [],
    trip_type := "oneway", return_date := none }

/-- A second award option with a distinct value per mile, for witnesses that
need a two-element result list. -/
def demoAward2 : AwardOption :=
  { airline := some "United", program := some "United MileagePlus",
    miles := some 50000, taxes := some 100, availability := none,
    transfer_partners := none }

/-- The comparison entry demoAward2 produces against demoCash and demoTpg:
the baseline 0.012 comes from the static default table. -/
def demoResult2 : ComparisonResult :=
  { airline := "United", program := "United MileagePlus",
    miles_required := 50000, taxes := 100, cash_price := 350,
    value_per_mile := 0.005, tpg_baseline := 0.012, verdict := "Use Cash",
    savings := -350, availability := "Unknown", transfer_partners := [],
    trip_type := "oneway", return_date := none }

/-- An award dict with no program key: the except handler at line 74 itself
reads award with bracket access on program, so this option is not skipped
but re-raises. -/
def awardMissingProgram : AwardOption :=
  { airline := some "American Airlines", program := none, miles := some 25000,
    taxes := some 50, availability := none, transfer_partners := none }

/-- An award dict with a program but no airline key: the KeyError of line 56
is caught and the handler can read program, so this option is skipped. -/
def awardMissingAirline : AwardOption :=
  { airline := none, program := some "American AAdvantage", miles := some 25000,
    taxes := some 50, availability := none, transfer_partners := none }

/-- The entry demoAward produces when the cash list is empty: the reference
cash price silently defaults to 0, giving a negative value per mile and
savings of -400. -/
def demoResultNoCash : ComparisonResult :=
  { airline := "American Airlines", program := "American AAdvantage",
    miles_required := 25000, taxes := 50, cash_price := 0,
    value_per_mile := -0.002, tpg_baseline := 0.014, verdict := "Use Cash",
    savings := -400, availability := "Good", transfer_partners := [],
    trip_type := "oneway", return_date := none }

/-- How a one-way comparison entry actually changes under a round trip:
miles, taxes and cash price double, savings is recomputed from the doubled
quantities, and the trip_type field records the round trip; value per mile,
baseline and verdict are untouched. -/
def doubleResult (r : ComparisonResult) : ComparisonResult :=
  { r with
    miles_required := r.miles_required * 2,
    taxes := r.taxes * 2,
    cash_price := r.cash_price * 2,
    savings := calculate_savings (r.cash_price * 2) (r.miles_required * 2)
      (r.taxes * 2) r.tpg_baseline,
    trip_type := "roundtrip" }

/-- The transformation claim C3 words: only miles, taxes and cash price
doubled, every other field of the result unchanged. -/
def claimDouble (r : ComparisonResult) : ComparisonResult :=
  { r with
    miles_required := r.miles_required * 2,
    taxes := r.taxes * 2,
    cash_price := r.cash_price * 2 }

/-! ## Helper lemmas -/

theorem vpm_double (c t m : ℚ) :
    calculate_value_per_mile (c * 2) (t * 2) (m * 2) = calculate_value_per_mile c t m := by
  unfold calculate_value_per_mile
  rcases le_or_lt m 0 with h | h
  · rw [if_pos (by linarith), if_pos h]
  · have hm : ¬ m ≤ 0 := not_le.mpr h
    have hm2 : ¬ m * 2 ≤ 0 := not_le.mpr (by linarith)
    rw [if_neg hm2, if_neg hm]
    have hne : m ≠ 0 := ne_of_gt h
    congr 1
    field_simp
    ring

theorem processAward_double (lowest : ℚ) (tpg : Option (List (String × ℚ)))
    (rd : Option String) (a : AwardOption) :
    processAward lowest 2 tpg "roundtrip" rd a =
      (processAward lowest 1 tpg "oneway" rd a).map doubleResult := by
  cases hp : a.program <;> cases hm : a.miles <;> cases ht : a.taxes <;> cases ha : a.airline <;>
    simp only [processAward, hp, hm, ht, ha, Except.map]
  simp [doubleResult, ComparisonResult.mk.injEq, mul_one, vpm_double]

theorem comparisonLoop_double (lowest : ℚ) (tpg : Option (List (String × ℚ)))
    (rd : Option String) (awards : List AwardOption) :
    comparisonLoop lowest 2 tpg "roundtrip" rd awards =
      (comparisonLoop lowest 1 tpg "oneway" rd awards).map (List.map doubleResult) := by
  induction awards with
  | nil => rfl
  | cons a rest ih =>
    simp only [comparisonLoop, processAward_double]
    cases hpa : processAward lowest 1 tpg "oneway" rd a with
    | ok r =>
      simp only [Except.map, ih]
      cases hrest : comparisonLoop lowest 1 tpg "oneway" rd rest <;> simp [Except.map]
    | error e =>
      simp only [Except.map]
      cases hp : a.program with
      | some _ => exact ih
      | none => rfl

theorem insertDesc_map (f : ComparisonResult → ComparisonResult)
    (hf : ∀ x, (f x).value_per_mile = x.value_per_mile) (r : ComparisonResult)
    (l : List ComparisonResult) :
    insertDesc (f r) (l.map f) = (insertDesc r l).map f := by
  induction l with
  | nil => rfl
  | cons x xs ih =>
    simp only [List.map, insertDesc, hf]
    by_cases h : x.value_per_mile ≤ r.value_per_mile
    · rw [if_pos h, if_pos h]; rfl
    · rw [if_neg h, if_neg h]; simp [List.map, ih]

theorem sortByVpmDesc_map (f : ComparisonResult → ComparisonResult)
    (hf : ∀ x, (f x).value_per_mile = x.value_per_mile) (l : List ComparisonResult) :
    sortByVpmDesc (l.map f) = (sortByVpmDesc l).map f := by
  induction l with
  | nil => rfl
  | cons x xs ih =>
    simp only [sortByVpmDesc, List.map, List.foldr] at *
    rw [ih, insertDesc_map f hf]

/-- C3, counterexample: on the test fixture of the source file, the round-trip
results are not the one-way results with only miles, taxes and cash price
doubled: the savings entry is recomputed from the doubled quantities (-100
instead of -50) and the trip_type field changes. -/
theorem c3_roundtrip_counterexample :
    calculate_value_comparison [demoAward] demoCash demoTpg "roundtrip" none ≠
      Except.map (List.map claimDouble)
        (calculate_value_comparison [demoAward] demoCash demoTpg "oneway" none) := by
  decide

/-- C3 (amended): a round-trip comparison yields exactly the one-way results
with miles_required, taxes and cash_price doubled, savings recomputed from
the doubled quantities, and trip_type set to roundtrip, while value_per_mile,
tpg_baseline and the verdict are unchanged. -/
theorem c3_roundtrip_doubling_amended (awards : List AwardOption) (cash : List CashFare)
    (tpg : Option (List (String × ℚ))) (rd : Option String) :
    calculate_value_comparison awards cash tpg "roundtrip" rd =
      Except.map (List.map doubleResult)
        (calculate_value_comparison awards cash tpg "oneway" rd) := by
  have e2 : calculate_value_comparison awards cash tpg "roundtrip" rd =
      (comparisonLoop (lowestCashPrice cash) 2 tpg "roundtrip" rd awards).map sortByVpmDesc := rfl
  have e1 : calculate_value_comparison awards cash tpg "oneway" rd =
      (comparisonLoop (lowestCashPrice cash) 1 tpg "oneway" rd awards).map sortByVpmDesc := rfl
  rw [e2, e1, comparisonLoop_double]
  cases comparisonLoop (lowestCashPrice cash) 1 tpg "oneway" rd awards with
  | ok l => simp [Except.map, sortByVpmDesc_map doubleResult (fun x => rfl)]
  | error e => rfl

/-- C3, closed instance of the amended statement on the test fixture. -/
theorem c3_roundtrip_doubling_amended_witness :
    calculate_value_comparison [demoAward] demoCash demoTpg "roundtrip" none =
      Except.map (List.map doubleResult)
        (calculate_value_comparison [demoAward] demoCash demoTpg "oneway" none) :=
  c3_roundtrip_doubling_amended [demoAward] demoCash demoTpg none

theorem mem_insertDesc {x r : ComparisonResult} {l : List ComparisonResult} :
    x ∈ insertDesc r l ↔ x = r ∨ x ∈ l := by
  induction l with
  | nil => simp [insertDesc]
  | cons y ys ih =>
    simp only [insertDesc]
    split
    · simp [List.mem_cons]
    · simp only [List.mem_cons, ih]
      tauto

theorem mem_sortByVpmDesc {x : ComparisonResult} {l : List ComparisonResult} :
    x ∈ sortByVpmDesc l ↔ x ∈ l := by
  induction l with
  | nil => simp [sortByVpmDesc]
  | cons y ys ih =>
    show x ∈ insertDesc y (sortByVpmDesc ys) ↔ _
    rw [mem_insertDesc]
    simp [ih, List.mem_cons]

theorem pairwise_insertDesc (r : ComparisonResult) {l : List ComparisonResult}
    (h : l.Pairwise fun a b => b.value_per_mile ≤ a.value_per_mile) :
    (insertDesc r l).Pairwise fun a b => b.value_per_mile ≤ a.value_per_mile := by
  induction l with
  | nil => simp [insertDesc]
  | cons x xs ih =>
    rw [List.pairwise_cons] at h
    obtain ⟨h1, h2⟩ := h
    simp only [insertDesc]
    split
    next hc =>
      rw [List.pairwise_cons]
      refine ⟨?_, ?_⟩
      · intro y hy
        rcases List.mem_cons.mp hy with rfl | hy2
        · exact hc
        · exact le_trans (h1 y hy2) hc
      · rw [List.pairwise_cons]
        exact ⟨h1, h2⟩
    next hc =>
      rw [List.pairwise_cons]
      refine ⟨?_, ih h2⟩
      intro y hy
      rcases mem_insertDesc.mp hy with rfl | hy2
      · exact le_of_lt (not_le.mp hc)
      · exact h1 y hy2

theorem pairwise_sortByVpmDesc (l : List ComparisonResult) :
    (sortByVpmDesc l).Pairwise fun a b => b.value_per_mile ≤ a.value_per_mile := by
  induction l with
  | nil => simp [sortByVpmDesc]
  | cons x xs ih => exact pairwise_insertDesc x ih

theorem comparison_ok_sort {awards : List AwardOption} {cash : List CashFare}
    {tpg : Option (List (String × ℚ))} {tt : String} {rd : Option String}
    {l : List ComparisonResult}
    (h : calculate_value_comparison awards cash tpg tt rd = .ok l) :
    ∃ l0, comparisonLoop (lowestCashPrice cash) (if tt == "roundtrip" then 2 else 1)
        tpg tt rd awards = .ok l0 ∧ l = sortByVpmDesc l0 := by
  simp only [calculate_value_comparison] at h
  cases hc : comparisonLoop (lowestCashPrice cash) (if tt == "roundtrip" then 2 else 1)
      tpg tt rd awards with
  | ok l0 =>
    rw [hc] at h
    simp only [Except.map, Except.ok.injEq] at h
    exact ⟨l0, rfl, h.symm⟩
  | error e =>
    rw [hc] at h
    simp [Except.map] at h

theorem processAward_ok_fields {lowest mult : ℚ} {tpg : Option (List (String × ℚ))}
    {tt : String} {rd : Option String} {a : AwardOption} {r : ComparisonResult}
    (h : processAward lowest mult tpg tt rd a = .ok r) :
    r.cash_price = lowest * mult ∧
    r.value_per_mile = calculate_value_per_mile (lowest * mult) r.taxes r.miles_required ∧
    r.savings = calculate_savings (lowest * mult) r.miles_required r.taxes r.tpg_baseline := by
  cases hp : a.program <;> cases hm : a.miles <;> cases ht : a.taxes <;> cases ha : a.airline <;>
    simp only [processAward, hp, hm, ht, ha] at h
  all_goals try exact (Except.noConfusion h)
  rw [Except.ok.injEq] at h
  subst h
  exact ⟨rfl, rfl, rfl⟩

theorem comparisonLoop_ok_mem {lowest mult : ℚ} {tpg : Option (List (String × ℚ))}
    {tt : String} {rd : Option String} :
    ∀ {awards : List AwardOption} {l : List ComparisonResult} {r : ComparisonResult},
      comparisonLoop lowest mult tpg tt rd awards = .ok l → r ∈ l →
      ∃ a, processAward lowest mult tpg tt rd a = .ok r := by
  intro awards
  induction awards with
  | nil =>
    intro l r h hr
    rw [comparisonLoop, Except.ok.injEq] at h
    subst h
    exact absurd hr (List.not_mem_nil r)
  | cons a rest ih =>
    intro l r h hr
    rw [comparisonLoop] at h
    cases hpa : processAward lowest mult tpg tt rd a with
    | ok r0 =>
      rw [hpa] at h
      cases hrest : comparisonLoop lowest mult tpg tt rd rest with
      | ok l0 =>
        rw [hrest] at h
        simp only [Except.map, Except.ok.injEq] at h
        subst h
        rcases List.mem_cons.mp hr with rfl | hr2
        · exact ⟨a, hpa⟩
        · exact ih hrest hr2
      | error e =>
        rw [hrest] at h
        exact (Except.noConfusion h)
    | error e =>
      rw [hpa] at h
      cases hp : a.program with
      | some p =>
        rw [hp] at h
        exact ih h hr
      | none =>
        rw [hp] at h
        exact (Except.noConfusion h)

theorem foldlMin_le (l : List CashFare) (init : ℚ) :
    l.foldl (fun m g => min m g.price) init ≤ init := by
  induction l generalizing init with
  | nil => exact le_refl init
  | cons g gs ih => exact le_trans (ih (min init g.price)) (min_le_left _ _)

theorem foldlMin_le_mem (l : List CashFare) (f : CashFare) :
    f ∈ l → ∀ init, l.foldl (fun m g => min m g.price) init ≤ f.price := by
  induction l with
  | nil => intro hf; cases hf
  | cons g gs ih =>
    intro hf init
    rcases List.mem_cons.mp hf with rfl | h2
    · exact le_trans (foldlMin_le gs (min init f.price)) (min_le_right _ _)
    · exact ih h2 (min init g.price)

theorem foldlMin_mem (l : List CashFare) :
    ∀ init, l.foldl (fun m g => min m g.price) init = init ∨
      ∃ f ∈ l, l.foldl (fun m g => min m g.price) init = f.price := by
  induction l with
  | nil => intro init; exact Or.inl rfl
  | cons g gs ih =>
    intro init
    rcases ih (min init g.price) with h | ⟨f, hf, h⟩
    · rcases min_choice init g.price with hm | hm
      · left
        simp only [List.foldl_cons]
        rw [h, hm]
      · right
        refine ⟨g, List.mem_cons_self g gs, ?_⟩
        simp only [List.foldl_cons]
        rw [h, hm]
    · right
      refine ⟨f, List.mem_cons_of_mem g hf, ?_⟩
      simp only [List.foldl_cons]
      exact h

theorem lowestCashPrice_le {cash : List CashFare} {f : CashFare} (hf : f ∈ cash) :
    lowestCashPrice cash ≤ f.price := by
  cases cash with
  | nil => cases hf
  | cons g gs =>
    rcases List.mem_cons.mp hf with rfl | h2
    · exact foldlMin_le gs f.price
    · exact foldlMin_le_mem gs f h2 g.price

theorem lowestCashPrice_mem {cash : List CashFare} (h : cash ≠ []) :
    ∃ f ∈ cash, lowestCashPrice cash = f.price := by
  cases cash with
  | nil => exact absurd rfl h
  | cons g gs =>
    rcases foldlMin_mem gs g.price with h1 | ⟨f, hf, h1⟩
    · exact ⟨g, List.mem_cons_self g gs, h1⟩
    · exact ⟨f, List.mem_cons_of_mem g hf, h1⟩

/-! ## Claim theorems -/

/-- C1: for miles > 0 the value per mile is exactly (cash_price - taxes) /
miles rounded to 4 decimal places, and for miles <= 0 it is 0, with no
division performed. -/
theorem c1_value_per_mile_formula (cash_price taxes miles : ℚ) :
    (0 < miles → calculate_value_per_mile cash_price taxes miles =
      round4 ((cash_price - taxes) / miles)) ∧
    (miles ≤ 0 → calculate_value_per_mile cash_price taxes miles = 0) := by
  unfold calculate_value_per_mile
  constructor
  · intro h
    rw [if_neg (not_le.mpr h)]
  · intro h
    rw [if_pos h]

/-- C1, closed instance: the fixture numbers and a zero-miles input. -/
theorem c1_value_per_mile_formula_witness :
    calculate_value_per_mile 350 50 25000 = round4 ((350 - 50) / 25000) ∧
    calculate_value_per_mile 350 50 0 = 0 :=
  ⟨(c1_value_per_mile_formula 350 50 25000).1 (by norm_num),
   (c1_value_per_mile_formula 350 50 0).2 (by norm_num)⟩

/-- C2, counterexample: at baseline 0 the value 0.9 times the baseline equals
0 and already passes the 1.1 threshold, so the verdict is Use Points, not
Good Value as the claim demands for every baseline. -/
theorem c2_boundary_counterexample :
    determine_verdict (0.9 * 0) 0 = "Use Points" ∧
    determine_verdict (0.9 * 0) 0 ≠ "Good Value" := by
  constructor
  · rfl
  · decide

/-- C2 (amended): the verdict thresholds as the code orders them, with the
boundary facts: value exactly 1.1 times the baseline always yields Use
Points, and value exactly 0.9 times the baseline yields Good Value whenever
the baseline is positive (for nonpositive baselines the 1.1 branch already
fires). -/
theorem c2_verdict_thresholds_amended (v b : ℚ) :
    (b * 1.1 ≤ v → determine_verdict v b = "Use Points") ∧
    (v < b * 1.1 → b * 0.9 ≤ v → determine_verdict v b = "Good Value") ∧
    (v < b * 1.1 → v < b * 0.9 → determine_verdict v b = "Use Cash") ∧
    determine_verdict (1.1 * b) b = "Use Points" ∧
    (0 < b → determine_verdict (0.9 * b) b = "Good Value") := by
  unfold determine_verdict
  refine ⟨?_, ?_, ?_, ?_, ?_⟩
  · intro h
    rw [if_pos h]
  · intro h1 h2
    rw [if_neg (not_le.mpr h1), if_pos h2]
  · intro h1 h2
    rw [if_neg (not_le.mpr h1), if_neg (not_le.mpr h2)]
  · rw [if_pos (le_of_eq (mul_comm b 1.1))]
  · intro hb
    rw [if_neg (not_le.mpr (by nlinarith)), if_pos (le_of_eq (mul_comm b 0.9))]

/-- C2, closed instances exercising each branch and both boundaries. -/
theorem c2_verdict_thresholds_amended_witness :
    determine_verdict 2 1 = "Use Points" ∧
    determine_verdict 1 1 = "Good Value" ∧
    determine_verdict 0 1 = "Use Cash" ∧
    determine_verdict (1.1 * 1) 1 = "Use Points" ∧
    determine_verdict (0.9 * 1) 1 = "Good Value" :=
  ⟨(c2_verdict_thresholds_amended 2 1).1 (by norm_num),
   (c2_verdict_thresholds_amended 1 1).2.1 (by norm_num) (by norm_num),
   (c2_verdict_thresholds_amended 0 1).2.2.1 (by norm_num) (by norm_num),
   (c2_verdict_thresholds_amended 0 1).2.2.2.1,
   (c2_verdict_thresholds_amended 0 1).2.2.2.2 (by norm_num)⟩

/-- C4: every entry of a successful comparison has savings equal to the
effective cash price minus the sum of effective miles times baseline and
effective taxes, rounded to 2 decimal places; and on the documented example
the savings are -50, which is negative. -/
theorem c4_savings_formula :
    (∀ (awards : List AwardOption) (cash : List CashFare)
        (tpg : Option (List (String × ℚ))) (tt : String) (rd : Option String)
        (l : List ComparisonResult) (r : ComparisonResult),
      calculate_value_comparison awards cash tpg tt rd = .ok l → r ∈ l →
      r.savings = round2 (r.cash_price - (r.miles_required * r.tpg_baseline + r.taxes))) ∧
    calculate_savings 350 25000 50 0.014 = -50 ∧
    calculate_savings 350 25000 50 0.014 < 0 := by
  refine ⟨?_, by decide, by decide⟩
  intro awards cash tpg tt rd l r h hr
  obtain ⟨l0, hl0, rfl⟩ := comparison_ok_sort h
  obtain ⟨a, ha⟩ := comparisonLoop_ok_mem hl0 (mem_sortByVpmDesc.mp hr)
  obtain ⟨hc, hv, hs⟩ := processAward_ok_fields ha
  rw [hs, ← hc]
  rfl

/-- C4, closed instance on the fixture result. -/
theorem c4_savings_formula_witness :
    demoResult.savings =
      round2 (demoResult.cash_price -
        (demoResult.miles_required * demoResult.tpg_baseline + demoResult.taxes)) ∧
    calculate_savings 350 25000 50 0.014 = -50 ∧
    calculate_savings 350 25000 50 0.014 < 0 :=
  ⟨c4_savings_formula.1 [demoAward] demoCash demoTpg "oneway" none [demoResult] demoResult
      (by decide) (by decide),
   c4_savings_formula.2.1, c4_savings_formula.2.2⟩

/-- C5: a successful comparison list is sorted in descending order of value
per mile, and strictly so when the values are pairwise distinct. -/
theorem c5_sorted_descending (awards : List AwardOption) (cash : List CashFare)
    (tpg : Option (List (String × ℚ))) (tt : String) (rd : Option String)
    (l : List ComparisonResult)
    (h : calculate_value_comparison awards cash tpg tt rd = .ok l) :
    (l.Pairwise fun a b => b.value_per_mile ≤ a.value_per_mile) ∧
    ((l.Pairwise fun a b => a.value_per_mile ≠ b.value_per_mile) →
      l.Pairwise fun a b => b.value_per_mile < a.value_per_mile) := by
  obtain ⟨l0, hl0, rfl⟩ := comparison_ok_sort h
  refine ⟨pairwise_sortByVpmDesc l0, fun hne => ?_⟩
  exact ((pairwise_sortByVpmDesc l0).and hne).imp
    fun hab => lt_of_le_of_ne hab.1 (Ne.symm hab.2)

/-- C5, closed instance: two fixture awards with distinct values per mile
come out strictly descending. -/
theorem c5_sorted_descending_witness :
    (List.Pairwise (fun a b => b.value_per_mile ≤ a.value_per_mile)
      [demoResult, demoResult2]) ∧
    (List.Pairwise (fun a b => b.value_per_mile < a.value_per_mile)
      [demoResult, demoResult2]) := by
  have h := c5_sorted_descending [demoAward, demoAward2] demoCash demoTpg "oneway" none
    [demoResult, demoResult2] (by decide)
  exact ⟨h.1, h.2 (by decide)⟩

/-- C9: the reference cash price is the minimum fare price, 0 on an empty
fare list, and every successful result carries it (times the trip
multiplier) as its cash_price, from which its value per mile and savings are
computed. -/
theorem c9_reference_cash_price :
    lowestCashPrice [] = 0 ∧
    (∀ (cash : List CashFare) (f : CashFare), f ∈ cash → lowestCashPrice cash ≤ f.price) ∧
    (∀ cash : List CashFare, cash ≠ [] → ∃ f ∈ cash, lowestCashPrice cash = f.price) ∧
    (∀ (awards : List AwardOption) (cash : List CashFare)
        (tpg : Option (List (String × ℚ))) (tt : String) (rd : Option String)
        (l : List ComparisonResult) (r : ComparisonResult),
      calculate_value_comparison awards cash tpg tt rd = .ok l → r ∈ l →
      r.cash_price = lowestCashPrice cash * (if tt == "roundtrip" then 2 else 1) ∧
      r.value_per_mile = calculate_value_per_mile r.cash_price r.taxes r.miles_required ∧
      r.savings = calculate_savings r.cash_price r.miles_required r.taxes r.tpg_baseline) := by
  refine ⟨rfl, fun cash f hf => lowestCashPrice_le hf, fun cash h => lowestCashPrice_mem h, ?_⟩
  intro awards cash tpg tt rd l r h hr
  obtain ⟨l0, hl0, rfl⟩ := comparison_ok_sort h
  obtain ⟨a, ha⟩ := comparisonLoop_ok_mem hl0 (mem_sortByVpmDesc.mp hr)
  obtain ⟨hc, hv, hs⟩ := processAward_ok_fields ha
  refine ⟨hc, ?_, ?_⟩
  · rw [hv, hc]
  · rw [hs, hc]

/-- C9, closed instances: minimality and membership on the fixture fare list
and the field relations on the fixture result. -/
theorem c9_reference_cash_price_witness :
    lowestCashPrice demoCash ≤ (350 : ℚ) ∧
    (∃ f ∈ demoCash, lowestCashPrice demoCash = f.price) ∧
    (demoResult.cash_price =
        lowestCashPrice demoCash * (if ("oneway" : String) == "roundtrip" then 2 else 1) ∧
      demoResult.value_per_mile =
        calculate_value_per_mile demoResult.cash_price demoResult.taxes
          demoResult.miles_required ∧
      demoResult.savings =
        calculate_savings demoResult.cash_price demoResult.miles_required
          demoResult.taxes demoResult.tpg_baseline) :=
  ⟨c9_reference_cash_price.2.1 demoCash { airline := "American Airlines", price := 350 }
      (by decide),
   c9_reference_cash_price.2.2.1 demoCash (by decide),
   c9_reference_cash_price.2.2.2 [demoAward] demoCash demoTpg "oneway" none
      [demoResult] demoResult (by decide) (by decide)⟩

/-- C6: evaluations settling the failure semantics of the comparison.  An
award dict without a program key makes the call itself raise, because the
except handler at line 74 reads the missing key again while formatting its
log line: the option is not skipped and a second, valid option is lost.  An
option missing only the airline key is skipped as intended and the rest are
processed; empty inputs and a missing valuation table return normally. -/
theorem c6_missing_program_raises :
    calculate_value_comparison [awardMissingProgram, demoAward] demoCash demoTpg "oneway" none
      = .error "KeyError: program" ∧
    calculate_value_comparison [awardMissingAirline, demoAward] demoCash demoTpg "oneway" none
      = .ok [demoResult] ∧
    calculate_value_comparison [] [] none "oneway" none = .ok [] ∧
    calculate_value_comparison [demoAward] demoCash none "oneway" none = .ok [demoResult] ∧
    calculate_value_comparison [demoAward] [] demoTpg "oneway" none = .ok [demoResultNoCash] := by
  refine ⟨by decide, by decide, rfl, by decide, by decide⟩

/-- C8: the baseline lookup is a pure function of the program name and the
valuation table: equal inputs give equal outputs. -/
theorem c8_baseline_deterministic (name name2 : String)
    (t t2 : Option (List (String × ℚ))) (hn : name = name2) (ht : t = t2) :
    get_tpg_baseline_value name t = get_tpg_baseline_value name2 t2 := by
  rw [hn, ht]

/-- C8, closed instance at a concrete name and table. -/
theorem c8_baseline_deterministic_witness :
    get_tpg_baseline_value "Delta SkyMiles" (some [("Delta SkyMiles", 0.011)]) =
      get_tpg_baseline_value "Delta SkyMiles" (some [("Delta SkyMiles", 0.011)]) :=
  c8_baseline_deterministic "Delta SkyMiles" "Delta SkyMiles"
    (some [("Delta SkyMiles", 0.011)]) (some [("Delta SkyMiles", 0.011)]) rfl rfl

/-- C10, counterexample: with miles 10, taxes 1/10000 and cash price 0 the
taxes exceed the cash price and the miles are positive, yet the value per
mile rounds to exactly 0 rather than a strictly negative number. -/
theorem c10_negative_vpm_counterexample :
    (0 : ℚ) < 10 ∧ (0 : ℚ) < 1 / 10000 ∧
    calculate_value_per_mile 0 (1 / 10000) 10 = 0 ∧
    ¬ calculate_value_per_mile 0 (1 / 10000) 10 < 0 := by
  decide

/-- C10 (amended): with positive miles and taxes exceeding the cash price the
value per mile is nonpositive, and strictly negative as soon as the deficit
per mile exceeds half of the rounding quantum, that is when
miles < (taxes - cash) * 20000; for every positive baseline the verdict on
such a value is Use Cash. -/
theorem c10_negative_vpm_amended (c t m : ℚ) (hm : 0 < m) (hct : c < t) :
    calculate_value_per_mile c t m ≤ 0 ∧
    (m < (t - c) * 20000 → calculate_value_per_mile c t m < 0) ∧
    (∀ b : ℚ, 0 < b → determine_verdict (calculate_value_per_mile c t m) b = "Use Cash") := by
  have hveq : calculate_value_per_mile c t m =
      ((round ((c - t) / m * 10000) : ℤ) : ℚ) / 10000 := by
    unfold calculate_value_per_mile round4
    rw [if_neg (not_le.mpr hm)]
  have hxneg : (c - t) / m < 0 := div_neg_of_neg_of_pos (by linarith) hm
  have hle : calculate_value_per_mile c t m ≤ 0 := by
    rw [hveq]
    apply div_nonpos_of_nonpos_of_nonneg _ (by norm_num)
    have h1 : round ((c - t) / m * 10000) ≤ 0 := by
      rw [round_eq]
      have h2 : (c - t) / m * 10000 + 1 / 2 < 1 := by linarith
      have h3 : ⌊(c - t) / m * 10000 + 1 / 2⌋ < 1 := by
        rw [Int.floor_lt]
        exact_mod_cast h2
      omega
    exact_mod_cast h1
  refine ⟨hle, ?_, ?_⟩
  · intro hlt
    rw [hveq]
    apply div_neg_of_neg_of_pos _ (by norm_num)
    have h1 : round ((c - t) / m * 10000) < 0 := by
      rw [round_eq]
      have hq : (c - t) / m * 10000 < -(1 / 2) := by
        rw [div_mul_eq_mul_div, div_lt_iff₀ hm]
        linarith
      have h3 : ⌊(c - t) / m * 10000 + 1 / 2⌋ < 0 := by
        rw [Int.floor_lt]
        push_cast
        linarith
      exact h3
    exact_mod_cast h1
  · intro b hb
    unfold determine_verdict
    rw [if_neg (not_le.mpr (lt_of_le_of_lt hle (by linarith))),
        if_neg (not_le.mpr (lt_of_le_of_lt hle (by linarith)))]

/-- C10, closed instance: cash 100, taxes 200, 10 miles. -/
theorem c10_negative_vpm_amended_witness :
    calculate_value_per_mile 100 200 10 ≤ 0 ∧
    calculate_value_per_mile 100 200 10 < 0 ∧
    determine_verdict (calculate_value_per_mile 100 200 10) 0.014 = "Use Cash" := by
  have h := c10_negative_vpm_amended 100 200 10 (by norm_num) (by norm_num)
  exact ⟨h.1, h.2.1 (by norm_num), h.2.2 0.014 (by norm_num)⟩

theorem findSome?_reverse_nil (name : String) (l : List (String × String)) :
    (l.findSome? fun p => if p.2 == name then exactStage [] p.1 else none) = none := by
  induction l with
  | nil => rfl
  | cons p t ih =>
    simp only [List.findSome?]
    cases hb : p.2 == name <;> simp [hb, exactStage, ih]

theorem aliasStage_nil (name : String) : aliasStage [] name = none := by
  unfold aliasStage
  cases program_mapping.lookup name <;> rfl

theorem reverseAliasStage_nil (name : String) : reverseAliasStage [] name = none :=
  findSome?_reverse_nil name program_mapping

theorem stageChain_defaults (name : String) :
    stageChain [none, none, none, none, defaultExactStage name, defaultSubstrStage name] 0.012
      = get_default_tpg_value name := by
  unfold stageChain get_default_tpg_value
  cases h1 : defaultExactStage name <;> cases h2 : defaultSubstrStage name <;>
    simp [List.findSome?, h1, h2]

/-- C7, counterexample: for the program name Hyatt Rewards Program and an
empty table, the code falls back to the global default 0.012, while the
cascade as the claim words it would match Southwest Rapid Rewards in the
default table through the word-overlap clause on the word rewards and return
0.013: the default-table stage of the code does not use the same substring
heuristic as the scraped-table stage. -/
theorem c7_default_heuristic_counterexample :
    get_tpg_baseline_value "Hyatt Rewards Program" (some []) = 0.012 ∧
    claimed_baseline_lookup "Hyatt Rewards Program" (some []) = 0.013 ∧
    get_tpg_baseline_value "Hyatt Rewards Program" (some []) ≠
      claimed_baseline_lookup "Hyatt Rewards Program" (some []) := by
  refine ⟨by decide, by decide, by decide⟩

/-- C7 (amended): the lookup is the first-match-wins cascade exact match,
alias-mapped exact match, substring and word-overlap heuristic, reverse
alias, default-table exact match, then bidirectional substring containment
only against the default-table keys, and finally the global default
0.012. -/
theorem c7_baseline_cascade_amended (name : String) (tpg : Option (List (String × ℚ))) :
    get_tpg_baseline_value name tpg = amended_baseline_lookup name tpg := by
  cases tpg with
  | none =>
    show get_default_tpg_value name =
      stageChain [exactStage [] name, aliasStage [] name, fuzzyStage [] name,
        reverseAliasStage [] name, defaultExactStage name, defaultSubstrStage name] 0.012
    rw [aliasStage_nil, reverseAliasStage_nil]
    exact (stageChain_defaults name).symm
  | some rows =>
    cases rows with
    | nil =>
      show get_default_tpg_value name =
        stageChain [exactStage [] name, aliasStage [] name, fuzzyStage [] name,
          reverseAliasStage [] name, defaultExactStage name, defaultSubstrStage name] 0.012
      rw [aliasStage_nil, reverseAliasStage_nil]
      exact (stageChain_defaults name).symm
    | cons p rest =>
      have hL : get_tpg_baseline_value name (some (p :: rest)) =
          (match exactStage (p :: rest) name with
           | some v => v
           | none =>
             match aliasStage (p :: rest) name with
             | some v => v
             | none =>
               match fuzzyStage (p :: rest) name with
               | some v => v
               | none =>
                 match reverseAliasStage (p :: rest) name with
                 | some v => v
                 | none => get_default_tpg_value name) := rfl
      have hR : amended_baseline_lookup name (some (p :: rest)) =
          stageChain [exactStage (p :: rest) name, aliasStage (p :: rest) name,
            fuzzyStage (p :: rest) name, reverseAliasStage (p :: rest) name,
            defaultExactStage name, defaultSubstrStage name] 0.012 := rfl
      rw [hL, hR]
      cases h1 : exactStage (p :: rest) name with
      | some v => rfl
      | none =>
        cases h2 : aliasStage (p :: rest) name with
        | some v => rfl
        | none =>
          cases h3 : fuzzyStage (p :: rest) name with
          | some v => rfl
          | none =>
            cases h4 : reverseAliasStage (p :: rest) name with
            | some v => rfl
            | none => exact (stageChain_defaults name).symm

/-- C7, closed instance of the amended cascade equation. -/
theorem c7_baseline_cascade_amended_witness :
    get_tpg_baseline_value "Hyatt Rewards Program" none =
      amended_baseline_lookup "Hyatt Rewards Program" none :=
  c7_baseline_cascade_amended "Hyatt Rewards Program" none
